import Mathlib

/-!
Shallow embedding of `calculate_home_distribution` from `src/main.py`
(repository `vpk14/calculate_distribution`).

The Python function computes, from a population `total_people : int` and a
route length `distance_km : float`:

```
homes_per_km = 13.5
total_homes = int(distance_km * homes_per_km)
if total_homes == 0: return "Distance is too short to calculate homes."
avg = total_people / total_homes
n = int(avg // 2) * 2
y = int((total_people - (n * total_homes)) // 2)
x = total_homes - y
...three-line string formatting...
```

The embedding models Python's real arithmetic exactly, with rationals (ℚ):
`int(q)` for a real `q` truncates toward zero, `q // 2` on reals is the
real floor of `q / 2`, `a // b` on Python ints is flooring division
(`Int.fdiv`), and `round` on Python reals rounds half to even.
-/

namespace CalcDist

/-- Truncation toward zero of a rational: the meaning of Python `int(q)`
for a real `q`. -/
def ratTrunc (q : ℚ) : ℤ :=
  if q < 0 then ⌈q⌉ else ⌊q⌋

/-- Python `round` on a real value: round to nearest, ties to even. -/
def pythonRound (q : ℚ) : ℤ :=
  if q - ⌊q⌋ < 1/2 then ⌊q⌋
  else if 1/2 < q - ⌊q⌋ then ⌊q⌋ + 1
  else if ⌊q⌋ % 2 = 0 then ⌊q⌋ else ⌊q⌋ + 1

/-- Density constant `homes_per_km = 13.5` (src/main.py line 68). -/
def homes_per_km : ℚ := 13.5

/-- Embedding of `total_homes = int(distance_km * homes_per_km)`
(src/main.py line 69). -/
def total_homes (distance_km : ℚ) : ℤ :=
  ratTrunc (distance_km * homes_per_km)

/-- Embedding of `avg = total_people / total_homes` (src/main.py line 75),
real division. -/
def avg (total_people h : ℤ) : ℚ :=
  (total_people : ℚ) / (h : ℚ)

/-- Embedding of `n = int(avg // 2) * 2` (src/main.py line 76): `avg // 2`
is the real floor of `avg / 2`, already integral, so the outer `int` is the
identity on it. -/
def base_count (total_people h : ℤ) : ℤ :=
  ⌊avg total_people h / 2⌋ * 2

/-- Embedding of `y = int((total_people - (n * total_homes)) // 2)`
(src/main.py line 79): flooring division of Python ints. -/
def homes_at_high (total_people h : ℤ) : ℤ :=
  Int.fdiv (total_people - base_count total_people h * h) 2

/-- Embedding of `x = total_homes - y` (src/main.py line 80). -/
def homes_at_base (total_people h : ℤ) : ℤ :=
  h - homes_at_high total_people h

/-- The pattern sentence built at src/main.py lines 83-88.  The guard
`if y != 0 else 0` of line 85 is kept verbatim even though it is redundant
under the surrounding `y > 0` check. -/
def pattern_desc (n x y : ℤ) : String :=
  if y > 0 then
    "Pattern: " ++ toString (if y ≠ 0 then pythonRound ((x : ℚ) / (y : ℚ)) else 0)
      ++ " homes with " ++ toString n ++ " people followed by 1 home with "
      ++ toString (n + 2) ++ " people."
  else
    "All homes receive exactly " ++ toString n ++ " people."

/-- The three-line result string returned at src/main.py lines 90-92. -/
def result_text (h n x y : ℤ) : String :=
  "Total Homes: " ++ toString h ++ "\n"
    ++ "Result: " ++ toString x ++ " homes with " ++ toString n
    ++ " people and " ++ toString y ++ " homes with " ++ toString (n + 2)
    ++ " people.\n"
    ++ pattern_desc n x y

/-- Embedding of the whole tool `calculate_home_distribution`
(src/main.py lines 62-92). -/
def calculate_home_distribution (total_people : ℤ) (distance_km : ℚ) : String :=
  if total_homes distance_km = 0 then
    "Distance is too short to calculate homes."
  else
    result_text (total_homes distance_km)
      (base_count total_people (total_homes distance_km))
      (homes_at_base total_people (total_homes distance_km))
      (homes_at_high total_people (total_homes distance_km))

/-! ### Basic lemmas about the embedded arithmetic -/

/-- For a non-negative rational, truncation toward zero is the floor. -/
lemma ratTrunc_of_nonneg (q : ℚ) (hq : 0 ≤ q) : ratTrunc q = ⌊q⌋ :=
  if_neg (not_lt.mpr hq)

/-- Floor of an integer quotient of rationals is Euclidean integer division
when the divisor is positive. -/
lemma floor_cast_div (p h : ℤ) (hh : 0 < h) : ⌊(p : ℚ) / (h : ℚ)⌋ = p / h := by
  obtain ⟨d, rfl⟩ : ∃ d : ℕ, h = (d : ℤ) := ⟨h.toNat, (Int.toNat_of_nonneg hh.le).symm⟩
  exact_mod_cast Rat.floor_intCast_div_natCast p d

/-- The lower even occupancy is twice the Euclidean quotient of
`total_people` by `2 * total_homes`. -/
lemma base_count_eq (p h : ℤ) (hh : 0 < h) : base_count p h = p / (2 * h) * 2 := by
  unfold base_count avg
  rw [div_div]
  rw [show ((h : ℚ) * 2) = (((2 * h : ℤ)) : ℚ) by push_cast; ring]
  rw [floor_cast_div p (2 * h) (by omega)]

/-- The residual population after giving every home `base_count` people is
`total_people mod (2 * total_homes)`. -/
lemma residual_eq (p h : ℤ) (hh : 0 < h) :
    p - base_count p h * h = p % (2 * h) := by
  rw [base_count_eq p h hh]
  linear_combination -Int.ediv_add_emod p (2 * h)

/-- Closed form for the number of high-occupancy homes. -/
lemma homes_at_high_eq (p h : ℤ) (hh : 0 < h) :
    homes_at_high p h = p % (2 * h) / 2 := by
  unfold homes_at_high
  rw [residual_eq p h hh, Int.fdiv_eq_ediv _ (by norm_num)]

/-- The number of high-occupancy homes is never negative. -/
lemma homes_at_high_nonneg (p h : ℤ) (hh : 0 < h) : 0 ≤ homes_at_high p h := by
  rw [homes_at_high_eq p h hh]
  exact Int.ediv_nonneg (Int.emod_nonneg p (by omega)) (by norm_num)

/-- The number of high-occupancy homes is strictly below `total_homes`. -/
lemma homes_at_high_lt (p h : ℤ) (hh : 0 < h) : homes_at_high p h < h := by
  rw [homes_at_high_eq p h hh]
  have h1 : 0 ≤ p % (2 * h) := Int.emod_nonneg p (by omega)
  have h2 : p % (2 * h) < 2 * h := Int.emod_lt_of_pos p (by omega)
  omega

/-- The distributed total equals `total_people` minus its parity bit. -/
lemma sum_eq (p h : ℤ) (hh : 0 < h) :
    base_count p h * homes_at_base p h
      + (base_count p h + 2) * homes_at_high p h = p - p % 2 := by
  unfold homes_at_base
  rw [homes_at_high_eq p h hh, base_count_eq p h hh]
  linear_combination Int.ediv_add_emod p (2 * h)
    + Int.ediv_add_emod (p % (2 * h)) 2
    - Int.emod_emod_of_dvd p (dvd_mul_right 2 h)

/-! ### Claims -/

/-- Claim C2: for every input with `total_homes > 0`, the two home counts
partition the homes: `homes_at_base + homes_at_high = total_homes`. -/
theorem partition_of_homes (p : ℤ) (d : ℚ) (hh : 0 < total_homes d) :
    homes_at_base p (total_homes d) + homes_at_high p (total_homes d)
      = total_homes d := by
  unfold homes_at_base; ring

/-- Witness for C2 at `total_people = 6900`, `distance_km = 48`. -/
theorem partition_of_homes_witness :
    0 < total_homes 48 ∧
      homes_at_base 6900 (total_homes 48) + homes_at_high 6900 (total_homes 48)
        = total_homes 48 := by
  have hh : 0 < total_homes 48 := by norm_num [total_homes, ratTrunc, homes_per_km]
  exact ⟨hh, partition_of_homes 6900 48 hh⟩

/-- Claim C1, counterexample: at `total_people = 7`, `distance_km = 1/10`
(so `total_homes = 1 > 0`), the distribution gives `6 * 1 + 8 * 0 = 6 ≠ 7`:
the claimed exact reproduction fails for odd populations. -/
theorem exact_reproduction_counterexample :
    0 < total_homes (1/10) ∧
      base_count 7 (total_homes (1/10)) * homes_at_base 7 (total_homes (1/10))
        + (base_count 7 (total_homes (1/10)) + 2) * homes_at_high 7 (total_homes (1/10))
        ≠ 7 := by
  have h1 : total_homes (1/10) = 1 := by norm_num [total_homes, ratTrunc, homes_per_km]
  have h2 : base_count 7 1 = 6 := by norm_num [base_count, avg]
  have h3 : homes_at_high 7 1 = 0 := by
    unfold homes_at_high; rw [h2]; decide
  have h4 : homes_at_base 7 1 = 1 := by
    unfold homes_at_base; rw [h3]; decide
  rw [h1, h2, h3, h4]
  norm_num

/-- Claim C1 (amended): for every input with `total_homes > 0` and an even
`total_people`, the computed distribution reproduces the population exactly:
`base_count * homes_at_base + (base_count + 2) * homes_at_high = total_people`. -/
theorem exact_reproduction_of_even (p : ℤ) (d : ℚ) (hp : 2 ∣ p)
    (hh : 0 < total_homes d) :
    base_count p (total_homes d) * homes_at_base p (total_homes d)
      + (base_count p (total_homes d) + 2) * homes_at_high p (total_homes d)
      = p := by
  rw [sum_eq p (total_homes d) hh]
  omega

/-- Witness for amended C1 at `total_people = 6900`, `distance_km = 48`. -/
theorem exact_reproduction_of_even_witness :
    (2 : ℤ) ∣ 6900 ∧ 0 < total_homes 48 ∧
      base_count 6900 (total_homes 48) * homes_at_base 6900 (total_homes 48)
        + (base_count 6900 (total_homes 48) + 2) * homes_at_high 6900 (total_homes 48)
        = 6900 := by
  have hh : 0 < total_homes 48 := by norm_num [total_homes, ratTrunc, homes_per_km]
  exact ⟨by norm_num, hh, exact_reproduction_of_even 6900 48 (by norm_num) hh⟩

/-- Claim C10: for every non-negative `total_people` with `total_homes > 0`,
the distributed total `n*x + (n+2)*y` equals `total_people` when
`total_people` is even and `total_people - 1` when it is odd. -/
theorem distributed_total_parity (p : ℤ) (d : ℚ) (hp : 0 ≤ p)
    (hh : 0 < total_homes d) :
    (2 ∣ p →
      base_count p (total_homes d) * homes_at_base p (total_homes d)
        + (base_count p (total_homes d) + 2) * homes_at_high p (total_homes d) = p)
    ∧ (¬ 2 ∣ p →
      base_count p (total_homes d) * homes_at_base p (total_homes d)
        + (base_count p (total_homes d) + 2) * homes_at_high p (total_homes d) = p - 1) := by
  rw [sum_eq p (total_homes d) hh]
  omega

/-- Witness for C10 at the odd population `6901`, `distance_km = 48`:
the distributed total is `6900 = 6901 - 1`. -/
theorem distributed_total_parity_witness :
    0 ≤ (6901 : ℤ) ∧ 0 < total_homes 48 ∧
      base_count 6901 (total_homes 48) * homes_at_base 6901 (total_homes 48)
        + (base_count 6901 (total_homes 48) + 2) * homes_at_high 6901 (total_homes 48)
        = 6900 := by
  have hh : 0 < total_homes 48 := by norm_num [total_homes, ratTrunc, homes_per_km]
  exact ⟨by norm_num, hh,
    (distributed_total_parity 6901 48 (by norm_num) hh).2 (by decide)⟩

/-- Claim C8: the reference scenario `total_people = 6900`,
`distance_km = 48.0` gives `total_homes = 648`, `base_count = 10`,
`homes_at_high = 210`, `homes_at_base = 438`, and
`10 * 438 + 12 * 210 = 6900`. -/
theorem reference_scenario :
    total_homes 48 = 648 ∧ base_count 6900 648 = 10
      ∧ homes_at_high 6900 648 = 210 ∧ homes_at_base 6900 648 = 438
      ∧ (10 : ℤ) * 438 + 12 * 210 = 6900 := by
  have h1 : total_homes 48 = 648 := by norm_num [total_homes, ratTrunc, homes_per_km]
  have h2 : base_count 6900 648 = 10 := by norm_num [base_count, avg]
  have h3 : homes_at_high 6900 648 = 210 := by
    unfold homes_at_high; rw [h2]; decide
  have h4 : homes_at_base 6900 648 = 438 := by
    unfold homes_at_base; rw [h3]; decide
  exact ⟨h1, h2, h3, h4, by norm_num⟩

/-- Claim C3: for `total_people ≥ 0` and `total_homes > 0`, `base_count`
equals `⌊avg / 2⌋ * 2`, is even, non-negative, is at most `avg`, and is the
largest even integer below `avg`. -/
theorem base_count_characterization (p : ℤ) (d : ℚ) (hp : 0 ≤ p)
    (hh : 0 < total_homes d) :
    base_count p (total_homes d) = ⌊avg p (total_homes d) / 2⌋ * 2
    ∧ 2 ∣ base_count p (total_homes d)
    ∧ 0 ≤ base_count p (total_homes d)
    ∧ (base_count p (total_homes d) : ℚ) ≤ avg p (total_homes d)
    ∧ ∀ m : ℤ, 2 ∣ m → (m : ℚ) ≤ avg p (total_homes d) →
        m ≤ base_count p (total_homes d) := by
  have havg : 0 ≤ avg p (total_homes d) := by
    unfold avg
    exact div_nonneg (by exact_mod_cast hp) (by exact_mod_cast hh.le)
  have hf : (⌊avg p (total_homes d) / 2⌋ : ℚ) ≤ avg p (total_homes d) / 2 :=
    Int.floor_le _
  refine ⟨rfl, dvd_mul_left 2 _, ?_, ?_, ?_⟩
  · unfold base_count
    have : 0 ≤ ⌊avg p (total_homes d) / 2⌋ :=
      Int.floor_nonneg.mpr (by linarith)
    omega
  · unfold base_count
    push_cast
    linarith
  · rintro m ⟨k, rfl⟩ hm
    unfold base_count
    push_cast at hm
    have hk : k ≤ ⌊avg p (total_homes d) / 2⌋ := Int.le_floor.mpr (by linarith)
    omega

/-- Witness for C3 at `total_people = 6900`, `distance_km = 48`. -/
theorem base_count_characterization_witness :
    0 ≤ (6900 : ℤ) ∧ 0 < total_homes 48 ∧ 2 ∣ base_count 6900 (total_homes 48) := by
  have hh : 0 < total_homes 48 := by norm_num [total_homes, ratTrunc, homes_per_km]
  exact ⟨by norm_num, hh, (base_count_characterization 6900 48 (by norm_num) hh).2.1⟩

/-- Claim C4: when `⌊distance_km * 13.5⌋ = 0`, the calculator returns the
distinguished message `Distance is too short to calculate homes.` (a normal
string result: the Python function neither crashes nor raises, and reports
no counts at all in this case). -/
theorem too_short_message (p : ℤ) (d : ℚ) (hd : 0 ≤ d)
    (h0 : ⌊d * homes_per_km⌋ = 0) :
    calculate_home_distribution p d
      = "Distance is too short to calculate homes." := by
  have ht : total_homes d = 0 := by
    unfold total_homes
    rw [ratTrunc_of_nonneg _ (mul_nonneg hd (by norm_num [homes_per_km]))]
    exact h0
  unfold calculate_home_distribution
  rw [if_pos ht]

/-- Witness for C4 at `total_people = 10`, `distance_km = 1/100`. -/
theorem too_short_message_witness :
    0 ≤ (1/100 : ℚ) ∧ ⌊(1/100 : ℚ) * homes_per_km⌋ = 0 ∧
      calculate_home_distribution 10 (1/100)
        = "Distance is too short to calculate homes." := by
  have h0 : ⌊(1/100 : ℚ) * homes_per_km⌋ = 0 := by norm_num [homes_per_km]
  exact ⟨by norm_num, h0, too_short_message 10 (1/100) (by norm_num) h0⟩

/-- Claim C7: for every non-negative `distance_km`, the number of homes is
`⌊distance_km * 13.5⌋`, and truncation toward zero agrees with the floor. -/
theorem homes_from_distance (d : ℚ) (hd : 0 ≤ d) :
    total_homes d = ⌊d * (13.5 : ℚ)⌋ := by
  unfold total_homes homes_per_km
  exact ratTrunc_of_nonneg _ (mul_nonneg hd (by norm_num))

/-- Witness for C7 at `distance_km = 48`. -/
theorem homes_from_distance_witness :
    0 ≤ (48 : ℚ) ∧ total_homes 48 = ⌊(48 : ℚ) * (13.5 : ℚ)⌋ :=
  ⟨by norm_num, homes_from_distance 48 (by norm_num)⟩

/-- Claim C5, counterexample: the negative population `total_people = -10`
with `distance_km = 48` is not rejected; the code computes a normal result
string (with the meaningless occupancy `-2`), so no `InvalidArgument`
rejection happens before the computation. -/
theorem negative_input_not_rejected :
    calculate_home_distribution (-10) 48
      = "Total Homes: 648\nResult: 5 homes with -2 people and 643 homes with 0 people.\nPattern: 0 homes with -2 people followed by 1 home with 0 people." := by
  norm_num [calculate_home_distribution, total_homes, ratTrunc, homes_per_km,
    base_count, avg, homes_at_high, homes_at_base, result_text, pattern_desc,
    pythonRound, Int.fdiv]
  rfl

/-- Claim C5 (amended): the reference code performs no input validation.
For every negative `total_people` with `total_homes > 0` the function
proceeds to the normal computation and returns the standard result text,
built around a negative `base_count`. -/
theorem no_negative_validation (p : ℤ) (d : ℚ) (hp : p < 0)
    (hh : 0 < total_homes d) :
    base_count p (total_homes d) < 0 ∧
    calculate_home_distribution p d
      = result_text (total_homes d) (base_count p (total_homes d))
          (homes_at_base p (total_homes d)) (homes_at_high p (total_homes d)) := by
  constructor
  · rw [base_count_eq p _ hh]
    have := Int.ediv_neg' hp (by omega : (0:ℤ) < 2 * total_homes d)
    omega
  · unfold calculate_home_distribution
    rw [if_neg (by omega : ¬ total_homes d = 0)]

/-- Witness for amended C5 at `total_people = -10`, `distance_km = 48`. -/
theorem no_negative_validation_witness :
    (-10 : ℤ) < 0 ∧ 0 < total_homes 48 ∧ base_count (-10) (total_homes 48) < 0 := by
  have hh : 0 < total_homes 48 := by norm_num [total_homes, ratTrunc, homes_per_km]
  exact ⟨by norm_num, hh, (no_negative_validation (-10) 48 (by norm_num) hh).1⟩

/-- Claim C6: for every input with `total_homes > 0` the returned value is a
single text blob of exactly three lines: the total-homes line, the result
line, and a pattern sentence that is the uniform sentence when
`homes_at_high = 0` and otherwise the alternating-pattern sentence with
ratio `round(homes_at_base / homes_at_high)` (Python `round`, ties to
even). -/
theorem three_line_contract (p : ℤ) (d : ℚ) (hh : 0 < total_homes d) :
    calculate_home_distribution p d
      = "Total Homes: " ++ toString (total_homes d) ++ "\n"
        ++ "Result: " ++ toString (homes_at_base p (total_homes d))
        ++ " homes with " ++ toString (base_count p (total_homes d))
        ++ " people and " ++ toString (homes_at_high p (total_homes d))
        ++ " homes with " ++ toString (base_count p (total_homes d) + 2)
        ++ " people.\n"
        ++ (if homes_at_high p (total_homes d) = 0 then
              "All homes receive exactly "
                ++ toString (base_count p (total_homes d)) ++ " people."
            else
              "Pattern: "
                ++ toString (pythonRound ((homes_at_base p (total_homes d) : ℚ)
                    / (homes_at_high p (total_homes d) : ℚ)))
                ++ " homes with " ++ toString (base_count p (total_homes d))
                ++ " people followed by 1 home with "
                ++ toString (base_count p (total_homes d) + 2) ++ " people.") := by
  have hy := homes_at_high_nonneg p (total_homes d) hh
  unfold calculate_home_distribution result_text pattern_desc
  rw [if_neg (by omega : ¬ total_homes d = 0)]
  by_cases h0 : homes_at_high p (total_homes d) = 0
  · rw [if_pos h0, if_neg (by omega : ¬ homes_at_high p (total_homes d) > 0)]
  · rw [if_neg h0, if_pos (by omega : homes_at_high p (total_homes d) > 0),
      if_pos h0]

/-- Witness for C6 at `total_people = 6900`, `distance_km = 48`. -/
theorem three_line_contract_witness :
    0 < total_homes 48 ∧
      calculate_home_distribution 6900 48
        = "Total Homes: " ++ toString (total_homes 48) ++ "\n"
          ++ "Result: " ++ toString (homes_at_base 6900 (total_homes 48))
          ++ " homes with " ++ toString (base_count 6900 (total_homes 48))
          ++ " people and " ++ toString (homes_at_high 6900 (total_homes 48))
          ++ " homes with " ++ toString (base_count 6900 (total_homes 48) + 2)
          ++ " people.\n"
          ++ (if homes_at_high 6900 (total_homes 48) = 0 then
                "All homes receive exactly "
                  ++ toString (base_count 6900 (total_homes 48)) ++ " people."
              else
                "Pattern: "
                  ++ toString (pythonRound ((homes_at_base 6900 (total_homes 48) : ℚ)
                      / (homes_at_high 6900 (total_homes 48) : ℚ)))
                  ++ " homes with " ++ toString (base_count 6900 (total_homes 48))
                  ++ " people followed by 1 home with "
                  ++ toString (base_count 6900 (total_homes 48) + 2) ++ " people.") := by
  have hh : 0 < total_homes 48 := by norm_num [total_homes, ratTrunc, homes_per_km]
  exact ⟨hh, three_line_contract 6900 48 hh⟩

end CalcDist
